import Mathlib

/-
  Verification of the jump_minigame simulation core.

  The definitions below are a shallow embedding of the TypeScript sources:
  - src/src/game/engine.ts   (GameEngine: input handling, jump math, session state)
  - src/src/game/player.ts   (Player: trajectory sampling, landing adjudication)
  - src/unnamed/part_006     (Platform: footprint, fall physics, point-on-platform test)

  JavaScript numbers are modelled as rationals; Math.sin(Math.PI * t) is
  abstracted as a function parameter where it occurs; Math.random() draws are
  passed in explicitly as rational samples in [0,1).
-/

namespace JumpGame

/-- 3D vector with rational coordinates, modelling THREE.Vector3. -/
structure Vec3 where
  x : ℚ
  y : ℚ
  z : ℚ
  deriving DecidableEq, Repr

/-- engine.ts:29 MAX_PRESS_TIME = 2000 (milliseconds). -/
def MAX_PRESS_TIME : ℚ := 2000

/-- engine.ts:1001 minJumpRatio = 0.6. -/
def minJumpRatioQ : ℚ := 3 / 5

/-- engine.ts:1002 maxJumpRatio = 3. -/
def maxJumpRatioQ : ℚ := 3

/-- part_006:341 tolerance = 0.15 in Platform.isPointOnPlatform. -/
def LANDING_TOLERANCE : ℚ := 3 / 20

/-- part_006:155 GRAVITY = -20. -/
def GRAVITY : ℚ := -20

/-- part_006:154 INITIAL_VELOCITY = -10. -/
def INITIAL_VELOCITY : ℚ := -10

/-- part_006:156 BOUNCE_FACTOR = 0.2. -/
def BOUNCE_FACTOR : ℚ := 1 / 5

/-- part_006:157 BOUNCE_THRESHOLD = 0.1. -/
def BOUNCE_THRESHOLD : ℚ := 1 / 10

/-- player.ts:295 height = 4 (fixed jump arc peak). -/
def JUMP_PEAK_HEIGHT : ℚ := 4

/-- player.ts:247 the landing check is done at platform-top height y = 1. -/
def PLAYER_PLATFORM_Y : ℚ := 1

/-- player.ts:452 jumpDuration = 0.6, set on every jump. -/
def JUMP_DURATION : ℚ := 3 / 5

/-- Logical platform state: position of the mesh group, the footprint chosen in
the constructor (part_006:169-170), and the fall-physics fields
(part_006:152-153). -/
structure Platform where
  pos : Vec3
  sizeX : ℚ
  sizeZ : ℚ
  isStart : Bool
  isFalling : Bool
  velocity : ℚ
  deriving DecidableEq, Repr

instance : Inhabited Platform := ⟨⟨⟨0, 0, 0⟩, 0, 0, false, false, 0⟩⟩

/-- Platform constructor, part_006:164-217: sizeX = isStart ? 2.5 : 2 + Math.random(),
and likewise sizeZ with an independent draw; position starts at the origin until
setPosition is called; not falling, zero velocity. -/
def mkPlatform (isStart : Bool) (rX rZ : ℚ) : Platform :=
  { pos := ⟨0, 0, 0⟩
    sizeX := if isStart then 5 / 2 else 2 + rX
    sizeZ := if isStart then 5 / 2 else 2 + rZ
    isStart := isStart
    isFalling := false
    velocity := 0 }

/-- Platform.setPosition, part_006:249-252. -/
def Platform.setPosition (p : Platform) (x y z : ℚ) : Platform :=
  { p with pos := ⟨x, y, z⟩ }

/-- Platform.startFalling, part_006:271-274. -/
def Platform.startFalling (p : Platform) : Platform :=
  { p with isFalling := true, velocity := INITIAL_VELOCITY }

/-- Platform.update, part_006:277-312: apply gravity to the velocity, move by
velocity * dt; on ground contact bounce (damped by BOUNCE_FACTOR) while the
contact speed exceeds BOUNCE_THRESHOLD, otherwise settle at y = 0 with zero
velocity and leave the falling state. -/
def Platform.update (p : Platform) (dt : ℚ) : Platform :=
  if p.isFalling = false then p
  else
    let v := p.velocity + GRAVITY * dt
    let newY := p.pos.y + v * dt
    if newY ≤ 0 then
      if BOUNCE_THRESHOLD < |v| then
        { p with velocity := -v * BOUNCE_FACTOR, pos := ⟨p.pos.x, 0, p.pos.z⟩ }
      else
        { p with velocity := 0, pos := ⟨p.pos.x, 0, p.pos.z⟩, isFalling := false }
    else
      { p with velocity := v, pos := ⟨p.pos.x, newY, p.pos.z⟩ }

/-- Platform.isPointOnPlatform, part_006:332-375: inclusive bounding-rectangle
test in the horizontal plane, with LANDING_TOLERANCE added on every edge; the
point's y and the platform's current y are never consulted. -/
def Platform.isPointOnPlatform (p : Platform) (pt : Vec3) : Bool :=
  decide (pt.x ≥ p.pos.x - p.sizeX / 2 - LANDING_TOLERANCE) &&
  decide (pt.x ≤ p.pos.x + p.sizeX / 2 + LANDING_TOLERANCE) &&
  decide (pt.z ≥ p.pos.z - p.sizeZ / 2 - LANDING_TOLERANCE) &&
  decide (pt.z ≤ p.pos.z + p.sizeZ / 2 + LANDING_TOLERANCE)

/-- GameEngine.generateNextPlatform, engine.ts:793-824: pick the x axis iff
the first draw is below 0.5, pick distance = Math.floor(r * (7 - 4 + 1)) + 4,
offset the previous platform by -distance along the chosen axis, spawn at
height y = 5 and start the fall animation. rX and rZ are the footprint draws
consumed by the Platform constructor. -/
def generateNextPlatform (last : Platform) (rAxis rDist rX rZ : ℚ) : Platform :=
  let distance : ℚ := ((⌊rDist * (7 - 4 + 1)⌋ : ℤ) : ℚ) + 4
  (((mkPlatform false rX rZ).setPosition
      (last.pos.x + (if rAxis < 1 / 2 then -distance else 0))
      5
      (last.pos.z + (if rAxis < 1 / 2 then 0 else -distance)))).startFalling

/-- engine.ts:955 in onPressEnd: power = Math.min(pressDuration / MAX_PRESS_TIME, 1). -/
def computeJumpPower (pressDuration : ℚ) : ℚ :=
  min (pressDuration / MAX_PRESS_TIME) 1

/-- engine.ts:694 in animate, the per-frame charging feedback:
power = Math.min(pressDuration / MAX_PRESS_TIME, 1). -/
def chargingFeedbackPower (pressDuration : ℚ) : ℚ :=
  min (pressDuration / MAX_PRESS_TIME) 1

/-- engine.ts:692 and engine.ts:950: pressDuration = Date.now() - pressStartTime. -/
def pressElapsed (now pressStart : ℚ) : ℚ := now - pressStart

/-- Math.sign as used at engine.ts:987 and engine.ts:990. -/
def qsign (q : ℚ) : ℚ := if 0 < q then 1 else if q < 0 then -1 else 0

/-- engine.ts:985-992: the travel direction, locked to the horizontal axis with
the larger absolute delta between the platform centers. -/
def jumpDirection (dX dZ : ℚ) : Vec3 :=
  if |dX| > |dZ| then ⟨qsign dX, 0, 0⟩ else ⟨0, 0, qsign dZ⟩

/-- engine.ts:996: platformDistance = Math.max(Math.abs(deltaX), Math.abs(deltaZ)). -/
def platformDistance (dX dZ : ℚ) : ℚ := max |dX| |dZ|

/-- engine.ts:1003: jumpRatio = minJumpRatio + (maxJumpRatio - minJumpRatio) * power. -/
def jumpRatioOf (power : ℚ) : ℚ :=
  minJumpRatioQ + (maxJumpRatioQ - minJumpRatioQ) * power

/-- engine.ts:1004: jumpDistance = platformDistance * jumpRatio. -/
def jumpDistanceOf (dX dZ power : ℚ) : ℚ :=
  platformDistance dX dZ * jumpRatioOf power

/-- engine.ts:1010-1028: target = playerPos + direction * jumpDistance, then the
coordinate orthogonal to the travel axis is force-aligned to the target
platform's center. direction.normalize() is the identity here because
jumpDirection is an axis-aligned sign vector of length 0 or 1. -/
def engineJumpTarget (curPos tgtPos playerPos : Vec3) (power : ℚ) : Vec3 :=
  let dX := tgtPos.x - curPos.x
  let dZ := tgtPos.z - curPos.z
  let dir := jumpDirection dX dZ
  let jd := jumpDistanceOf dX dZ power
  let tp : Vec3 := ⟨playerPos.x + dir.x * jd, playerPos.y + dir.y * jd, playerPos.z + dir.z * jd⟩
  if |dX| > |dZ| then { tp with z := tgtPos.z } else { tp with x := tgtPos.x }

/-- The first-match scan over the platform list in Player.update,
player.ts:258-266 (for ... { if (platform.isPointOnPlatform) { ...; break } }). -/
def findLandedPlatform : List Platform → Vec3 → Option Platform
  | [], _ => none
  | p :: ps, pt => if p.isPointOnPlatform pt then some p else findLandedPlatform ps pt

/-- Trajectory-completion adjudication, player.ts:244-287: the final position is
taken at platform-top height y = 1, tested against every platform; on a miss
the height is set to ground level y = 0. Returns the final position and the
success flag passed to onJumpComplete. -/
def resolveLanding (platforms : List Platform) (jumpTarget : Vec3) : Vec3 × Bool :=
  let landingPos : Vec3 := ⟨jumpTarget.x, PLAYER_PLATFORM_Y, jumpTarget.z⟩
  match findLandedPlatform platforms landingPos with
  | some _ => (landingPos, true)
  | none => (⟨landingPos.x, 0, landingPos.z⟩, false)

/-- In-flight position sampling, player.ts:290-316: horizontal linear
interpolation from jumpStartPosition to jumpTargetPosition, vertical arc
y = 1 + height * Math.sin(Math.PI * t) with fixed height. sinPiQ abstracts
t fun-mapped-to Math.sin(Math.PI * t). -/
def samplePosition (sinPiQ : ℚ → ℚ) (p0 p1 : Vec3) (t : ℚ) : Vec3 :=
  ⟨p0.x + (p1.x - p0.x) * t,
   1 + JUMP_PEAK_HEIGHT * sinPiQ t,
   p0.z + (p1.z - p0.z) * t⟩

/-- Fall-direction selection in the failure branch of GameEngine.jump,
engine.ts:1104-1127: test the final position against the target platform's
four sides, z-min, z-max, x-min, x-max in that fixed textual order; if all
four tests fail, use the travel direction. -/
def fallDirectionOfMiss (tp platPos : Vec3) (sizeX sizeZ : ℚ) (travelDir : Vec3) : Vec3 :=
  let minX := platPos.x - sizeX / 2
  let maxX := platPos.x + sizeX / 2
  let minZ := platPos.z - sizeZ / 2
  let maxZ := platPos.z + sizeZ / 2
  if tp.z < minZ then ⟨0, 0, -1⟩
  else if tp.z > maxZ then ⟨0, 0, 1⟩
  else if tp.x < minX then ⟨-1, 0, 0⟩
  else if tp.x > maxX then ⟨1, 0, 0⟩
  else travelDir

/-- The priority order stated by the spec for the failing side: the two sides
on the travel axis are checked before the two lateral sides, with the
min-side before the max-side on each axis, and the travel direction as the
all-inside fallback. Written from the spec sentence for comparison with
fallDirectionOfMiss. -/
def fallDirectionSpecOrder (axisIsX : Prop) [Decidable axisIsX] (tp platPos : Vec3)
    (sizeX sizeZ : ℚ) (travelDir : Vec3) : Vec3 :=
  let minX := platPos.x - sizeX / 2
  let maxX := platPos.x + sizeX / 2
  let minZ := platPos.z - sizeZ / 2
  let maxZ := platPos.z + sizeZ / 2
  if axisIsX then
    if tp.x < minX then ⟨-1, 0, 0⟩
    else if tp.x > maxX then ⟨1, 0, 0⟩
    else if tp.z < minZ then ⟨0, 0, -1⟩
    else if tp.z > maxZ then ⟨0, 0, 1⟩
    else travelDir
  else
    if tp.z < minZ then ⟨0, 0, -1⟩
    else if tp.z > maxZ then ⟨0, 0, 1⟩
    else if tp.x < minX then ⟨-1, 0, 0⟩
    else if tp.x > maxX then ⟨1, 0, 0⟩
    else travelDir

end JumpGame

namespace JumpGame

/-- Player-side mutable state, player.ts:12-38. rotationY stores the yaw in
units of pi; isToppling is the isFalling flag of player.ts:26; chargeScale is
the vertical squash applied while charging. -/
structure PlayerState where
  position : Vec3
  rotationY : ℚ
  isJumping : Bool
  isCharging : Bool
  isToppling : Bool
  chargeScale : ℚ
  jumpProgress : ℚ
  jumpPower : ℚ
  jumpStart : Vec3
  jumpTarget : Vec3
  jumpDuration : ℚ
  deriving DecidableEq, Repr

/-- Player.startCharging, player.ts:419-423: a no-op while mid-jump. -/
def Player.startCharging (pl : PlayerState) : PlayerState :=
  if pl.isJumping then pl else { pl with isCharging := true, chargeScale := 3 / 5 }

/-- Player.updateCharging, player.ts:425-429: a no-op unless charging. -/
def Player.updateCharging (pl : PlayerState) (power : ℚ) : PlayerState :=
  if pl.isCharging = false then pl else { pl with chargeScale := 1 - power * (2 / 5) }

/-- Player.rotate, player.ts:401-403. -/
def Player.rotate (pl : PlayerState) (angle : ℚ) : PlayerState :=
  { pl with rotationY := angle }

/-- Player.jump, player.ts:431-468: a no-op while already mid-jump; otherwise
start the trajectory with the fixed duration of 0.6 seconds. -/
def Player.jump (pl : PlayerState) (power : ℚ) (target : Vec3) : PlayerState :=
  if pl.isJumping then pl
  else
    { pl with
      isCharging := false
      isJumping := true
      jumpProgress := 0
      jumpPower := power
      jumpStart := pl.position
      jumpTarget := target
      jumpDuration := JUMP_DURATION
      chargeScale := 1 }

/-- Math.atan2(x, z) at engine.ts:1032, in units of pi. In GameEngine.jump it
is only ever evaluated on axis-aligned sign vectors, where it takes the
values pi/2, -pi/2, pi and 0. -/
def atan2Axis (x z : ℚ) : ℚ :=
  if 0 < x then 1 / 2 else if x < 0 then -1 / 2 else if z < 0 then 1 else 0

/-- Engine-side state relevant to input handling, engine.ts:22-69. -/
structure EngineState where
  isGameStarted : Bool
  isGameOver : Bool
  isPressing : Bool
  cameraMoving : Bool
  pressStartTime : ℚ
  score : ℕ
  platforms : List Platform
  currentPlatformIndex : ℕ
  targetPlatformIndex : ℕ
  player : PlayerState
  deriving DecidableEq, Repr

/-- GameEngine.jump, engine.ts:969-1038 up to the Player.jump call: guard,
direction and target computation, Player.rotate, Player.jump. The landing
callback body runs later, at trajectory completion, and is modelled
separately. -/
def engineJump (s : EngineState) (power : ℚ) : EngineState :=
  if s.platforms.length < 2 ∨ s.isGameOver = true then s
  else
    let curPos := (s.platforms.getD s.currentPlatformIndex default).pos
    let tgtPos := (s.platforms.getD s.targetPlatformIndex default).pos
    let dX := tgtPos.x - curPos.x
    let dZ := tgtPos.z - curPos.z
    let dir := jumpDirection dX dZ
    let tp := engineJumpTarget curPos tgtPos s.player.position power
    { s with player := Player.jump (Player.rotate s.player (atan2Axis dir.x dir.z)) power tp }

/-- GameEngine.onPressStart, engine.ts:903-932: ignored unless the game is
started, not over, and the camera is not moving; otherwise record the press
timestamp, raise isPressing and start the player's charging squash. -/
def onPressStart (s : EngineState) (now : ℚ) : EngineState :=
  if s.isGameStarted = false ∨ s.isGameOver = true ∨ s.cameraMoving = true then s
  else
    { s with
      isPressing := true
      pressStartTime := now
      player := Player.startCharging s.player }

/-- GameEngine.onPressEnd, engine.ts:934-967: ignored unless a press is in
progress; otherwise compute the power from the elapsed press time, clear
isPressing and run GameEngine.jump. -/
def onPressEnd (s : EngineState) (now : ℚ) : EngineState :=
  if s.isPressing = false then s
  else
    engineJump { s with isPressing := false }
      (computeJumpPower (pressElapsed now s.pressStartTime))

/-- GameEngine.showGameOver, engine.ts:826-835: idempotent; sets isGameOver and
clears isPressing (the DOM and timer side effects are external). -/
def showGameOver (s : EngineState) : EngineState :=
  if s.isGameOver then s else { s with isGameOver := true, isPressing := false }

/-- External input events delivered to the engine. -/
inductive GEvent where
  | press (now : ℚ)
  | release (now : ℚ)
  deriving DecidableEq, Repr

/-- Dispatch one input event. -/
def applyEvent (s : EngineState) : GEvent → EngineState
  | .press now => onPressStart s now
  | .release now => onPressEnd s now

/-- Dispatch a sequence of input events in order. -/
def applyEvents (s : EngineState) (evs : List GEvent) : EngineState :=
  evs.foldl applyEvent s

/-- Session-level state for the platform-index bookkeeping,
engine.ts:22-24 and engine.ts:68-69. -/
structure SessionState where
  platforms : List Platform
  currentPlatformIndex : ℕ
  targetPlatformIndex : ℕ
  score : ℕ
  gameOver : Bool
  deriving DecidableEq, Repr

/-- GameEngine.generateNextPlatform at the session level, engine.ts:793-824:
generate from the last platform of the list and append. -/
def sessionGenerateNext (s : SessionState) (rAxis rDist rX rZ : ℚ) : SessionState :=
  { s with
    platforms :=
      s.platforms ++ [generateNextPlatform (s.platforms.getLastD default) rAxis rDist rX rZ] }

/-- GameEngine.setupPlatforms, engine.ts:661-674, with the index fields at
their initial values of engine.ts:68-69: the fixed start platform at the
origin, then one generated successor. -/
def initSession (rAxis rDist rX rZ : ℚ) : SessionState :=
  sessionGenerateNext
    { platforms := [(mkPlatform true 0 0).setPosition 0 0 0]
      currentPlatformIndex := 0
      targetPlatformIndex := 1
      score := 0
      gameOver := false }
    rAxis rDist rX rZ

/-- The success branch of the jump callback, engine.ts:1048-1057: advance both
indices, increment the score, generate the next platform. -/
def sessionLandSuccess (s : SessionState) (rAxis rDist rX rZ : ℚ) : SessionState :=
  sessionGenerateNext
    { s with
      currentPlatformIndex := s.targetPlatformIndex
      targetPlatformIndex := s.targetPlatformIndex + 1
      score := s.score + 1 }
    rAxis rDist rX rZ

/-- The failure branch of the jump callback, engine.ts:1076-1131: the session
becomes game over (showGameOver). -/
def sessionLandFail (s : SessionState) : SessionState :=
  { s with gameOver := true }

/-- Session states reachable at rest (not mid-jump): the initial setup, and
the session after each landing resolution. -/
inductive SessionReachable : SessionState → Prop
  | init (rAxis rDist rX rZ : ℚ) : SessionReachable (initSession rAxis rDist rX rZ)
  | success (s : SessionState) (rAxis rDist rX rZ : ℚ) :
      SessionReachable s → s.gameOver = false →
      SessionReachable (sessionLandSuccess s rAxis rDist rX rZ)
  | fail (s : SessionState) : SessionReachable s → SessionReachable (sessionLandFail s)

/-- The fixed start platform at the origin, engine.ts:663-664. -/
def startPlatformProbe : Platform := (mkPlatform true 0 0).setPosition 0 0 0

/-- A grounded player standing on the start platform, player.ts and engine.ts:657. -/
def probePlayer : PlayerState :=
  { position := ⟨0, 1, 0⟩
    rotationY := 0
    isJumping := false
    isCharging := false
    isToppling := false
    chargeScale := 1
    jumpProgress := 0
    jumpPower := 0
    jumpStart := ⟨0, 1, 0⟩
    jumpTarget := ⟨0, 1, 0⟩
    jumpDuration := 0 }

/-- An engine state mid-flight: the jump toward the platform at (0,0,-5) is at
progress 1/2, no press in flight, camera at rest. -/
def airborneProbe : EngineState :=
  { isGameStarted := true
    isGameOver := false
    isPressing := false
    cameraMoving := false
    pressStartTime := 0
    score := 0
    platforms := [startPlatformProbe, generateNextPlatform startPlatformProbe (3/4) (1/4) 0 0]
    currentPlatformIndex := 0
    targetPlatformIndex := 1
    player :=
      { probePlayer with
        isJumping := true
        jumpProgress := 1/2
        jumpPower := 1/2
        jumpTarget := ⟨0, 1, -5⟩
        jumpDuration := JUMP_DURATION } }

/-- A freshly generated platform, as produced by engine.ts:793-824 from the
start platform with axis draw 0 (x axis) and distance draw 0 (distance 4):
it sits at (-4, 5, 0), falling with velocity -10. -/
def freshFallingPlatform : Platform :=
  generateNextPlatform startPlatformProbe 0 0 0 0

/-- Bounce detector for one frame of Platform.update: the platform is falling,
the integrated position reaches the ground, and the contact speed is above
BOUNCE_THRESHOLD, so part_006:289-294 reverses and damps the velocity. -/
def fallStepBounced (p : Platform) (dt : ℚ) : Bool :=
  p.isFalling &&
  decide (p.pos.y + (p.velocity + GRAVITY * dt) * dt ≤ 0) &&
  decide (BOUNCE_THRESHOLD < |p.velocity + GRAVITY * dt|)

/-- Number of damped bounces performed along a frame-time trace. -/
def countBounces (p : Platform) : List ℚ → ℕ
  | [] => 0
  | dt :: dts => (if fallStepBounced p dt then 1 else 0) + countBounces (p.update dt) dts

/-- Replace a platform's current height, keeping its horizontal position and
footprint: the state of the same platform caught mid-fall at height h. -/
def setPlatY (h : ℚ) (p : Platform) : Platform :=
  { p with pos := ⟨p.pos.x, h, p.pos.z⟩ }

end JumpGame

namespace JumpGame

theorem platformDistance_nonneg (dX dZ : ℚ) : 0 ≤ platformDistance dX dZ :=
  le_trans (abs_nonneg dX) (le_max_left _ _)

/-- C1: when a charge is released, the jump distance equals
platformDistance * (minRatio + (maxRatio - minRatio) * power) where
platformDistance = max(|deltaX|, |deltaZ|); the fixed ratios satisfy
minRatio < 1 < maxRatio; the distance is monotone in power, strictly so for a
positive platform distance, and is bounded by
[platformDistance * minRatio, platformDistance * maxRatio] for power in [0,1]. -/
theorem c1_jump_distance (dX dZ p q : ℚ) (hp0 : 0 ≤ p) (hpq : p ≤ q) (hq1 : q ≤ 1) :
    jumpDistanceOf dX dZ p
      = platformDistance dX dZ * (minJumpRatioQ + (maxJumpRatioQ - minJumpRatioQ) * p) ∧
    platformDistance dX dZ = max |dX| |dZ| ∧
    minJumpRatioQ < 1 ∧ (1 : ℚ) < maxJumpRatioQ ∧
    jumpDistanceOf dX dZ p ≤ jumpDistanceOf dX dZ q ∧
    (0 < platformDistance dX dZ → p < q →
      jumpDistanceOf dX dZ p < jumpDistanceOf dX dZ q) ∧
    platformDistance dX dZ * minJumpRatioQ ≤ jumpDistanceOf dX dZ p ∧
    jumpDistanceOf dX dZ p ≤ platformDistance dX dZ * maxJumpRatioQ := by
  have hpd : 0 ≤ platformDistance dX dZ := platformDistance_nonneg dX dZ
  have hp1 : p ≤ 1 := le_trans hpq hq1
  refine ⟨rfl, rfl, by norm_num [minJumpRatioQ], by norm_num [maxJumpRatioQ], ?_, ?_, ?_, ?_⟩
  · unfold jumpDistanceOf
    apply mul_le_mul_of_nonneg_left _ hpd
    unfold jumpRatioOf minJumpRatioQ maxJumpRatioQ
    nlinarith
  · intro hpos hlt
    unfold jumpDistanceOf
    apply mul_lt_mul_of_pos_left _ hpos
    unfold jumpRatioOf minJumpRatioQ maxJumpRatioQ
    nlinarith
  · unfold jumpDistanceOf
    apply mul_le_mul_of_nonneg_left _ hpd
    unfold jumpRatioOf minJumpRatioQ maxJumpRatioQ
    nlinarith
  · unfold jumpDistanceOf
    apply mul_le_mul_of_nonneg_left _ hpd
    unfold jumpRatioOf minJumpRatioQ maxJumpRatioQ
    nlinarith

/-- Witness for C1 at deltaX = 0, deltaZ = -5, power pair (0, 1). -/
theorem c1_witness :
    jumpDistanceOf 0 (-5) 0
      = platformDistance 0 (-5) * (minJumpRatioQ + (maxJumpRatioQ - minJumpRatioQ) * 0) ∧
    platformDistance 0 (-5) = max |(0 : ℚ)| |(-5 : ℚ)| ∧
    minJumpRatioQ < 1 ∧ (1 : ℚ) < maxJumpRatioQ ∧
    jumpDistanceOf 0 (-5) 0 ≤ jumpDistanceOf 0 (-5) 1 ∧
    (0 < platformDistance 0 (-5) → (0 : ℚ) < 1 →
      jumpDistanceOf 0 (-5) 0 < jumpDistanceOf 0 (-5) 1) ∧
    platformDistance 0 (-5) * minJumpRatioQ ≤ jumpDistanceOf 0 (-5) 0 ∧
    jumpDistanceOf 0 (-5) 0 ≤ platformDistance 0 (-5) * maxJumpRatioQ :=
  c1_jump_distance 0 (-5) 0 1 (by norm_num) (by norm_num) (by norm_num)

/-- C3: releasing a held press computes power = min(elapsed / MAX_PRESS_TIME, 1),
which is exactly 1 for any elapsed time at or beyond MAX_PRESS_TIME, and the
per-frame charging feedback value is computed by the same formula from the
same press-start timestamp, so it equals the value release would emit. -/
theorem c3_power_formula (now t0 : ℚ) (h : MAX_PRESS_TIME ≤ pressElapsed now t0) :
    computeJumpPower (pressElapsed now t0) = 1 ∧
    (∀ d : ℚ, computeJumpPower d = min (d / MAX_PRESS_TIME) 1) ∧
    (∀ n s : ℚ, chargingFeedbackPower (pressElapsed n s) = computeJumpPower (pressElapsed n s)) := by
  refine ⟨?_, fun d => rfl, fun n s => rfl⟩
  unfold computeJumpPower
  have h2000 : (0 : ℚ) < MAX_PRESS_TIME := by norm_num [MAX_PRESS_TIME]
  have : (1 : ℚ) ≤ pressElapsed now t0 / MAX_PRESS_TIME := by
    rw [le_div_iff₀ h2000]
    linarith
  simp [min_eq_right this]

/-- Witness for C3 at a press held from time 0 to time 2500. -/
theorem c3_witness :
    computeJumpPower (pressElapsed 2500 0) = 1 ∧
    (∀ d : ℚ, computeJumpPower d = min (d / MAX_PRESS_TIME) 1) ∧
    (∀ n s : ℚ, chargingFeedbackPower (pressElapsed n s) = computeJumpPower (pressElapsed n s)) :=
  c3_power_formula 2500 0 (by norm_num [MAX_PRESS_TIME, pressElapsed])

theorem isPointOnPlatform_iff (p : Platform) (pt : Vec3) :
    p.isPointOnPlatform pt = true ↔
      (p.pos.x - p.sizeX / 2 - LANDING_TOLERANCE ≤ pt.x ∧
       pt.x ≤ p.pos.x + p.sizeX / 2 + LANDING_TOLERANCE ∧
       p.pos.z - p.sizeZ / 2 - LANDING_TOLERANCE ≤ pt.z ∧
       pt.z ≤ p.pos.z + p.sizeZ / 2 + LANDING_TOLERANCE) := by
  simp [Platform.isPointOnPlatform, Bool.and_eq_true, decide_eq_true_eq, ge_iff_le, and_assoc]

theorem findLandedPlatform_isSome (ps : List Platform) (pt : Vec3) :
    (findLandedPlatform ps pt).isSome = true ↔ ∃ p ∈ ps, p.isPointOnPlatform pt = true := by
  induction ps with
  | nil => simp [findLandedPlatform]
  | cons hd tl ih =>
    by_cases h : hd.isPointOnPlatform pt = true
    · simp [findLandedPlatform, h]
    · simp only [findLandedPlatform, List.mem_cons]
      rw [if_neg h, ih]
      constructor
      · rintro ⟨p, hp, hon⟩
        exact ⟨p, Or.inr hp, hon⟩
      · rintro ⟨p, hp | hp, hon⟩
        · exact absurd (hp ▸ hon) h
        · exact ⟨p, hp, hon⟩

theorem resolveLanding_success_iff (ps : List Platform) (q : Vec3) :
    (resolveLanding ps q).2 = true ↔
      ∃ p ∈ ps, p.isPointOnPlatform ⟨q.x, PLAYER_PLATFORM_Y, q.z⟩ = true := by
  rw [← findLandedPlatform_isSome]
  unfold resolveLanding
  cases h : findLandedPlatform ps ⟨q.x, PLAYER_PLATFORM_Y, q.z⟩ <;> simp [h]

/-- C2: on trajectory completion the final horizontal position is tested
against every platform in the session; the per-platform test passes iff the x
and z coordinates each lie within the platform center plus or minus
(half-footprint + tolerance), inclusively; the landing succeeds iff some
platform passes; a position exactly at half-footprint from the center
succeeds, and a position farther than half-footprint + tolerance from the
center on an axis fails that platform. -/
theorem c2_landing_judgement (ps : List Platform) (q : Vec3) :
    ((resolveLanding ps q).2 = true ↔
      ∃ p ∈ ps, p.isPointOnPlatform ⟨q.x, PLAYER_PLATFORM_Y, q.z⟩ = true) ∧
    (∀ (p : Platform) (pt : Vec3),
      p.isPointOnPlatform pt = true ↔
        (p.pos.x - p.sizeX / 2 - LANDING_TOLERANCE ≤ pt.x ∧
         pt.x ≤ p.pos.x + p.sizeX / 2 + LANDING_TOLERANCE ∧
         p.pos.z - p.sizeZ / 2 - LANDING_TOLERANCE ≤ pt.z ∧
         pt.z ≤ p.pos.z + p.sizeZ / 2 + LANDING_TOLERANCE)) ∧
    (∀ (p : Platform) (pt : Vec3),
      0 ≤ p.sizeX → pt.x = p.pos.x + p.sizeX / 2 →
      p.pos.z - p.sizeZ / 2 ≤ pt.z → pt.z ≤ p.pos.z + p.sizeZ / 2 →
      p.isPointOnPlatform pt = true) ∧
    (∀ (p : Platform) (pt : Vec3),
      p.sizeX / 2 + LANDING_TOLERANCE < |pt.x - p.pos.x| →
      p.isPointOnPlatform pt = false) ∧
    (∀ (p : Platform) (pt : Vec3),
      p.sizeZ / 2 + LANDING_TOLERANCE < |pt.z - p.pos.z| →
      p.isPointOnPlatform pt = false) := by
  refine ⟨resolveLanding_success_iff ps q, isPointOnPlatform_iff, ?_, ?_, ?_⟩
  · intro p pt hX hx hz1 hz2
    rw [isPointOnPlatform_iff]
    have htol : (0 : ℚ) ≤ LANDING_TOLERANCE := by norm_num [LANDING_TOLERANCE]
    exact ⟨by linarith, by linarith, by linarith, by linarith⟩
  · intro p pt hfar
    cases h : p.isPointOnPlatform pt with
    | false => rfl
    | true =>
      exfalso
      rw [isPointOnPlatform_iff] at h
      obtain ⟨h1, h2, h3, h4⟩ := h
      have habs : |pt.x - p.pos.x| ≤ p.sizeX / 2 + LANDING_TOLERANCE :=
        abs_le.mpr ⟨by linarith, by linarith⟩
      linarith
  · intro p pt hfar
    cases h : p.isPointOnPlatform pt with
    | false => rfl
    | true =>
      exfalso
      rw [isPointOnPlatform_iff] at h
      obtain ⟨h1, h2, h3, h4⟩ := h
      have habs : |pt.z - p.pos.z| ≤ p.sizeZ / 2 + LANDING_TOLERANCE :=
        abs_le.mpr ⟨by linarith, by linarith⟩
      linarith

/-- Witness for C2 on the start platform and a point on its edge. -/
theorem c2_witness :
    ((resolveLanding [(mkPlatform true 0 0).setPosition 0 0 0] ⟨5/4, 0, 0⟩).2 = true ↔
      ∃ p ∈ [(mkPlatform true 0 0).setPosition 0 0 0],
        p.isPointOnPlatform ⟨(5/4 : ℚ), PLAYER_PLATFORM_Y, 0⟩ = true) ∧
    (∀ (p : Platform) (pt : Vec3),
      p.isPointOnPlatform pt = true ↔
        (p.pos.x - p.sizeX / 2 - LANDING_TOLERANCE ≤ pt.x ∧
         pt.x ≤ p.pos.x + p.sizeX / 2 + LANDING_TOLERANCE ∧
         p.pos.z - p.sizeZ / 2 - LANDING_TOLERANCE ≤ pt.z ∧
         pt.z ≤ p.pos.z + p.sizeZ / 2 + LANDING_TOLERANCE)) ∧
    (∀ (p : Platform) (pt : Vec3),
      0 ≤ p.sizeX → pt.x = p.pos.x + p.sizeX / 2 →
      p.pos.z - p.sizeZ / 2 ≤ pt.z → pt.z ≤ p.pos.z + p.sizeZ / 2 →
      p.isPointOnPlatform pt = true) ∧
    (∀ (p : Platform) (pt : Vec3),
      p.sizeX / 2 + LANDING_TOLERANCE < |pt.x - p.pos.x| →
      p.isPointOnPlatform pt = false) ∧
    (∀ (p : Platform) (pt : Vec3),
      p.sizeZ / 2 + LANDING_TOLERANCE < |pt.z - p.pos.z| →
      p.isPointOnPlatform pt = false) :=
  c2_landing_judgement [(mkPlatform true 0 0).setPosition 0 0 0] ⟨5/4, 0, 0⟩

theorem floor_dist_eq (rD : ℚ) : ⌊rD * (7 - 4 + 1 : ℚ)⌋ = ⌊rD * 4⌋ := by norm_num

/-- C4: a generated platform sits at the previous platform's position offset by
-distance along exactly one axis (x iff the axis draw is below 1/2, the other
coordinate unchanged), with distance = floor(draw * 4) + 4, an integer in
[4,7] taking each value exactly on a quarter-length subinterval of the draw
space; its footprint sizes are 2 + draw, each in [2,3); the start platform
footprint is fixed at 2.5 by 2.5. -/
theorem c4_platform_generation (last : Platform) (rA rD rX rZ : ℚ)
    (hD0 : 0 ≤ rD) (hD1 : rD < 1) (hX0 : 0 ≤ rX) (hX1 : rX < 1)
    (hZ0 : 0 ≤ rZ) (hZ1 : rZ < 1) :
    (4 ≤ ⌊rD * 4⌋ + 4 ∧ ⌊rD * 4⌋ + 4 ≤ 7) ∧
    (generateNextPlatform last rA rD rX rZ).pos.y = 5 ∧
    (generateNextPlatform last rA rD rX rZ).isFalling = true ∧
    (rA < 1/2 →
      (generateNextPlatform last rA rD rX rZ).pos.x
        = last.pos.x - (((⌊rD * 4⌋ : ℤ) : ℚ) + 4) ∧
      (generateNextPlatform last rA rD rX rZ).pos.z = last.pos.z) ∧
    (¬ rA < 1/2 →
      (generateNextPlatform last rA rD rX rZ).pos.x = last.pos.x ∧
      (generateNextPlatform last rA rD rX rZ).pos.z
        = last.pos.z - (((⌊rD * 4⌋ : ℤ) : ℚ) + 4)) ∧
    (∀ k : ℤ, (⌊rD * 4⌋ + 4 = k ↔ ((k : ℚ) - 4) / 4 ≤ rD ∧ rD < ((k : ℚ) - 3) / 4)) ∧
    (generateNextPlatform last rA rD rX rZ).sizeX = 2 + rX ∧
    (generateNextPlatform last rA rD rX rZ).sizeZ = 2 + rZ ∧
    (2 ≤ (generateNextPlatform last rA rD rX rZ).sizeX ∧
      (generateNextPlatform last rA rD rX rZ).sizeX < 3) ∧
    (2 ≤ (generateNextPlatform last rA rD rX rZ).sizeZ ∧
      (generateNextPlatform last rA rD rX rZ).sizeZ < 3) ∧
    (∀ r1 r2 : ℚ, (mkPlatform true r1 r2).sizeX = 5/2 ∧ (mkPlatform true r1 r2).sizeZ = 5/2) := by
  have h40 : (0 : ℚ) ≤ rD * 4 := by nlinarith
  have h44 : rD * 4 < 4 := by nlinarith
  have hfl0 : 0 ≤ ⌊rD * 4⌋ := Int.floor_nonneg.mpr h40
  have hfl3 : ⌊rD * 4⌋ < 4 := Int.floor_lt.mpr (by exact_mod_cast h44)
  refine ⟨⟨by omega, by omega⟩, rfl, rfl, ?_, ?_, ?_, ?_, ?_, ?_, ?_, fun r1 r2 => ⟨rfl, rfl⟩⟩
  · intro h
    constructor
    · simp only [generateNextPlatform, Platform.startFalling, Platform.setPosition, if_pos h,
        floor_dist_eq]
      ring
    · simp only [generateNextPlatform, Platform.startFalling, Platform.setPosition, if_pos h]
      ring
  · intro h
    constructor
    · simp only [generateNextPlatform, Platform.startFalling, Platform.setPosition, if_neg h]
      ring
    · simp only [generateNextPlatform, Platform.startFalling, Platform.setPosition, if_neg h,
        floor_dist_eq]
      ring
  · intro k
    constructor
    · intro h
      have hk : ⌊rD * 4⌋ = k - 4 := by omega
      have hb := Int.floor_eq_iff.mp hk
      obtain ⟨hb1, hb2⟩ := hb
      push_cast at hb1 hb2
      constructor <;> [linarith; linarith]
    · rintro ⟨h1, h2⟩
      have hk : ⌊rD * 4⌋ = k - 4 := by
        apply Int.floor_eq_iff.mpr
        push_cast
        constructor <;> [linarith; linarith]
      omega
  · simp [generateNextPlatform, Platform.startFalling, Platform.setPosition, mkPlatform]
  · simp [generateNextPlatform, Platform.startFalling, Platform.setPosition, mkPlatform]
  · constructor <;>
      simp [generateNextPlatform, Platform.startFalling, Platform.setPosition, mkPlatform] <;>
      linarith
  · constructor <;>
      simp [generateNextPlatform, Platform.startFalling, Platform.setPosition, mkPlatform] <;>
      linarith

/-- Witness for C4 at draws rA = 0, rD = 1/2, rX = 1/4, rZ = 3/4. -/
theorem c4_witness :
    (4 ≤ ⌊(1/2 : ℚ) * 4⌋ + 4 ∧ ⌊(1/2 : ℚ) * 4⌋ + 4 ≤ 7) ∧
    (generateNextPlatform startPlatformProbe 0 (1/2) (1/4) (3/4)).pos.y = 5 ∧
    (generateNextPlatform startPlatformProbe 0 (1/2) (1/4) (3/4)).isFalling = true ∧
    ((0 : ℚ) < 1/2 →
      (generateNextPlatform startPlatformProbe 0 (1/2) (1/4) (3/4)).pos.x
        = startPlatformProbe.pos.x - (((⌊(1/2 : ℚ) * 4⌋ : ℤ) : ℚ) + 4) ∧
      (generateNextPlatform startPlatformProbe 0 (1/2) (1/4) (3/4)).pos.z
        = startPlatformProbe.pos.z) ∧
    (¬ (0 : ℚ) < 1/2 →
      (generateNextPlatform startPlatformProbe 0 (1/2) (1/4) (3/4)).pos.x
        = startPlatformProbe.pos.x ∧
      (generateNextPlatform startPlatformProbe 0 (1/2) (1/4) (3/4)).pos.z
        = startPlatformProbe.pos.z - (((⌊(1/2 : ℚ) * 4⌋ : ℤ) : ℚ) + 4)) ∧
    (∀ k : ℤ, (⌊(1/2 : ℚ) * 4⌋ + 4 = k ↔
      ((k : ℚ) - 4) / 4 ≤ 1/2 ∧ (1/2 : ℚ) < ((k : ℚ) - 3) / 4)) ∧
    (generateNextPlatform startPlatformProbe 0 (1/2) (1/4) (3/4)).sizeX = 2 + 1/4 ∧
    (generateNextPlatform startPlatformProbe 0 (1/2) (1/4) (3/4)).sizeZ = 2 + 3/4 ∧
    (2 ≤ (generateNextPlatform startPlatformProbe 0 (1/2) (1/4) (3/4)).sizeX ∧
      (generateNextPlatform startPlatformProbe 0 (1/2) (1/4) (3/4)).sizeX < 3) ∧
    (2 ≤ (generateNextPlatform startPlatformProbe 0 (1/2) (1/4) (3/4)).sizeZ ∧
      (generateNextPlatform startPlatformProbe 0 (1/2) (1/4) (3/4)).sizeZ < 3) ∧
    (∀ r1 r2 : ℚ, (mkPlatform true r1 r2).sizeX = 5/2 ∧ (mkPlatform true r1 r2).sizeZ = 5/2) :=
  c4_platform_generation startPlatformProbe 0 (1/2) (1/4) (3/4)
    (by norm_num) (by norm_num) (by norm_num) (by norm_num) (by norm_num) (by norm_num)

/-- C5: at each normalized time t the sampled horizontal position is the linear
interpolation from start toward target, the vertical position is the fixed
arc 1 + JUMP_PEAK_HEIGHT * sin(pi t) whose peak height does not depend on the
jump endpoints, and the flight duration set by Player.jump is the fixed
constant 0.6 independent of distance and power. -/
theorem c5_trajectory (sinPiQ : ℚ → ℚ) (p0 p1 q0 q1 : Vec3) (t power : ℚ)
    (pl : PlayerState) (target : Vec3) (hnj : pl.isJumping = false) :
    (samplePosition sinPiQ p0 p1 t).x = p0.x + (p1.x - p0.x) * t ∧
    (samplePosition sinPiQ p0 p1 t).z = p0.z + (p1.z - p0.z) * t ∧
    (samplePosition sinPiQ p0 p1 t).y = 1 + JUMP_PEAK_HEIGHT * sinPiQ t ∧
    (samplePosition sinPiQ p0 p1 t).y = (samplePosition sinPiQ q0 q1 t).y ∧
    (Player.jump pl power target).jumpDuration = JUMP_DURATION ∧
    JUMP_DURATION = 3/5 := by
  refine ⟨rfl, rfl, rfl, rfl, ?_, rfl⟩
  simp [Player.jump, hnj]

/-- Witness for C5 on a grounded player jumping to (0,1,-5) at power 1/2, time 1/4. -/
theorem c5_witness :
    (samplePosition (fun _ => 0) ⟨0,1,0⟩ ⟨0,1,-5⟩ (1/4)).x = 0 + (0 - 0) * (1/4) ∧
    (samplePosition (fun _ => 0) ⟨0,1,0⟩ ⟨0,1,-5⟩ (1/4)).z = 0 + (-5 - 0) * (1/4) ∧
    (samplePosition (fun _ => 0) ⟨0,1,0⟩ ⟨0,1,-5⟩ (1/4)).y
      = 1 + JUMP_PEAK_HEIGHT * (fun _ : ℚ => (0 : ℚ)) (1/4) ∧
    (samplePosition (fun _ => 0) ⟨0,1,0⟩ ⟨0,1,-5⟩ (1/4)).y
      = (samplePosition (fun _ => 0) ⟨3,1,2⟩ ⟨-7,1,2⟩ (1/4)).y ∧
    (Player.jump probePlayer (1/2) ⟨0,1,-5⟩).jumpDuration = JUMP_DURATION ∧
    JUMP_DURATION = 3/5 :=
  c5_trajectory (fun _ => 0) ⟨0,1,0⟩ ⟨0,1,-5⟩ ⟨3,1,2⟩ ⟨-7,1,2⟩ (1/4) (1/2)
    probePlayer ⟨0,1,-5⟩ rfl

/-- C6: on a failed landing the character's height is set to ground level; the
fall direction computed by the failure branch of GameEngine.jump on the
aligned jump target coincides with testing the target platform's four sides
with the travel-axis sides checked before the lateral sides; if the final
position is inside the target's bounds on all four sides, the travel
direction is returned. -/
theorem c6_fall_direction (curPos playerPos : Vec3) (pl : Platform) (power : ℚ)
    (hX : 0 ≤ pl.sizeX) (hZ : 0 ≤ pl.sizeZ) :
    (∀ (ps : List Platform) (q : Vec3),
      (resolveLanding ps q).2 = false → ((resolveLanding ps q).1).y = 0) ∧
    fallDirectionOfMiss (engineJumpTarget curPos pl.pos playerPos power) pl.pos pl.sizeX pl.sizeZ
        (jumpDirection (pl.pos.x - curPos.x) (pl.pos.z - curPos.z))
      = fallDirectionSpecOrder (|pl.pos.x - curPos.x| > |pl.pos.z - curPos.z|)
          (engineJumpTarget curPos pl.pos playerPos power) pl.pos pl.sizeX pl.sizeZ
          (jumpDirection (pl.pos.x - curPos.x) (pl.pos.z - curPos.z)) ∧
    (∀ (tp platPos : Vec3) (sX sZ : ℚ) (dir : Vec3),
      platPos.z - sZ / 2 ≤ tp.z → tp.z ≤ platPos.z + sZ / 2 →
      platPos.x - sX / 2 ≤ tp.x → tp.x ≤ platPos.x + sX / 2 →
      fallDirectionOfMiss tp platPos sX sZ dir = dir) := by
  refine ⟨?_, ?_, ?_⟩
  · intro ps q hfail
    unfold resolveLanding at *
    cases h : findLandedPlatform ps ⟨q.x, PLAYER_PLATFORM_Y, q.z⟩ <;> simp [h] at hfail ⊢
  · by_cases hax : |pl.pos.x - curPos.x| > |pl.pos.z - curPos.z|
    · have htpz : (engineJumpTarget curPos pl.pos playerPos power).z = pl.pos.z := by
        simp [engineJumpTarget, hax]
      have hz1 : ¬ ((engineJumpTarget curPos pl.pos playerPos power).z
          < pl.pos.z - pl.sizeZ / 2) := by
        rw [htpz]; linarith
      have hz2 : ¬ (pl.pos.z + pl.sizeZ / 2
          < (engineJumpTarget curPos pl.pos playerPos power).z) := by
        rw [htpz]; linarith
      simp only [fallDirectionOfMiss, fallDirectionSpecOrder]
      rw [if_pos hax]
      split_ifs <;> first | rfl | (exfalso; simp only [gt_iff_lt] at *; linarith)
    · simp only [fallDirectionOfMiss, fallDirectionSpecOrder]
      rw [if_neg hax]
  · intro tp platPos sX sZ dir h1 h2 h3 h4
    simp only [fallDirectionOfMiss]
    split_ifs with a b c d <;> first | rfl | (exfalso; simp only [gt_iff_lt] at *; linarith)

/-- Witness for C6: current platform at the origin, target platform of footprint
2.5 by 2.5 at (0,0,-5), player at the start position, power 0. -/
theorem c6_witness :
    (∀ (ps : List Platform) (q : Vec3),
      (resolveLanding ps q).2 = false → ((resolveLanding ps q).1).y = 0) ∧
    fallDirectionOfMiss
        (engineJumpTarget ⟨0,0,0⟩ (startPlatformProbe.setPosition 0 0 (-5)).pos ⟨0,1,0⟩ 0)
        (startPlatformProbe.setPosition 0 0 (-5)).pos
        (startPlatformProbe.setPosition 0 0 (-5)).sizeX
        (startPlatformProbe.setPosition 0 0 (-5)).sizeZ
        (jumpDirection ((startPlatformProbe.setPosition 0 0 (-5)).pos.x - (0:ℚ))
          ((startPlatformProbe.setPosition 0 0 (-5)).pos.z - (0:ℚ)))
      = fallDirectionSpecOrder
          (|(startPlatformProbe.setPosition 0 0 (-5)).pos.x - (0:ℚ)|
            > |(startPlatformProbe.setPosition 0 0 (-5)).pos.z - (0:ℚ)|)
          (engineJumpTarget ⟨0,0,0⟩ (startPlatformProbe.setPosition 0 0 (-5)).pos ⟨0,1,0⟩ 0)
          (startPlatformProbe.setPosition 0 0 (-5)).pos
          (startPlatformProbe.setPosition 0 0 (-5)).sizeX
          (startPlatformProbe.setPosition 0 0 (-5)).sizeZ
          (jumpDirection ((startPlatformProbe.setPosition 0 0 (-5)).pos.x - (0:ℚ))
            ((startPlatformProbe.setPosition 0 0 (-5)).pos.z - (0:ℚ))) ∧
    (∀ (tp platPos : Vec3) (sX sZ : ℚ) (dir : Vec3),
      platPos.z - sZ / 2 ≤ tp.z → tp.z ≤ platPos.z + sZ / 2 →
      platPos.x - sX / 2 ≤ tp.x → tp.x ≤ platPos.x + sX / 2 →
      fallDirectionOfMiss tp platPos sX sZ dir = dir) :=
  c6_fall_direction ⟨0,0,0⟩ ⟨0,1,0⟩ (startPlatformProbe.setPosition 0 0 (-5)) 0
    (by norm_num [startPlatformProbe, mkPlatform, Platform.setPosition])
    (by norm_num [startPlatformProbe, mkPlatform, Platform.setPosition])

theorem applyEvent_gameOver (s : EngineState) (ev : GEvent)
    (hgo : s.isGameOver = true) (hpr : s.isPressing = false) :
    applyEvent s ev = s := by
  cases ev with
  | press now =>
    show onPressStart s now = s
    unfold onPressStart
    rw [if_pos (Or.inr (Or.inl hgo))]
  | release now =>
    show onPressEnd s now = s
    unfold onPressEnd
    rw [if_pos hpr]

theorem applyEvents_gameOver (s : EngineState)
    (hgo : s.isGameOver = true) (hpr : s.isPressing = false) :
    ∀ evs : List GEvent, applyEvents s evs = s
  | [] => rfl
  | e :: es => by
    show applyEvents (applyEvent s e) es = s
    rw [applyEvent_gameOver s e hgo hpr]
    exact applyEvents_gameOver s hgo hpr es

theorem onPressStart_airborne (t : EngineState) (now : ℚ)
    (hjump : t.player.isJumping = true) :
    (onPressStart t now).player = t.player ∧ (onPressStart t now).score = t.score := by
  unfold onPressStart
  split
  · exact ⟨rfl, rfl⟩
  · constructor
    · show Player.startCharging t.player = t.player
      unfold Player.startCharging
      rw [if_pos hjump]
    · rfl

theorem onPressEnd_airborne (t : EngineState) (now : ℚ)
    (hjump : t.player.isJumping = true) :
    (onPressEnd t now).player.position = t.player.position ∧
    (onPressEnd t now).score = t.score ∧
    (onPressEnd t now).player.isJumping = true ∧
    (onPressEnd t now).player.jumpTarget = t.player.jumpTarget := by
  unfold onPressEnd
  split
  · exact ⟨rfl, rfl, hjump, rfl⟩
  · unfold engineJump
    split
    · exact ⟨rfl, rfl, hjump, rfl⟩
    · simp [Player.jump, Player.rotate, hjump]

/-- C7 counterexample: in a mid-flight state (airborne, game not over, camera at
rest), a press event is not a silent no-op: it raises the engine's pressing
flag and records the press timestamp, starting the engine-side charge. -/
theorem c7_counterexample :
    airborneProbe.player.isJumping = true ∧
    airborneProbe.isPressing = false ∧
    (applyEvent airborneProbe (GEvent.press 5)).isPressing = true ∧
    (applyEvent airborneProbe (GEvent.press 5)).pressStartTime = 5 :=
  ⟨rfl, rfl, rfl, rfl⟩

/-- C7 amended: once gameOver is true (and hence isPressing has been cleared by
showGameOver), every sequence of press and release events leaves the entire
engine state unchanged; while airborne, a press starts no character charging
and changes neither the character position nor the score, and a release
triggers no new jump and changes neither the character position, the score,
nor the stored jump target — but the engine-side pressing flag and timestamp
are still mutated by an airborne press, as the counterexample shows. -/
theorem c7_inputs (s : EngineState) (now : ℚ) (evs : List GEvent)
    (hgo : s.isGameOver = true) (hpr : s.isPressing = false)
    (t : EngineState) (hjump : t.player.isJumping = true) :
    applyEvents s evs = s ∧
    (∀ u : EngineState, u.isGameOver = false →
      (showGameOver u).isGameOver = true ∧ (showGameOver u).isPressing = false) ∧
    (onPressStart t now).player.position = t.player.position ∧
    (onPressStart t now).player.isCharging = t.player.isCharging ∧
    (onPressStart t now).score = t.score ∧
    (onPressStart t now).player.isJumping = true ∧
    (onPressEnd t now).player.position = t.player.position ∧
    (onPressEnd t now).score = t.score ∧
    (onPressEnd t now).player.isJumping = true ∧
    (onPressEnd t now).player.jumpTarget = t.player.jumpTarget := by
  obtain ⟨hps, hss⟩ := onPressStart_airborne t now hjump
  obtain ⟨he1, he2, he3, he4⟩ := onPressEnd_airborne t now hjump
  refine ⟨applyEvents_gameOver s hgo hpr evs, ?_, by rw [hps], by rw [hps], hss,
    by rw [hps]; exact hjump, he1, he2, he3, he4⟩
  intro u hu
  unfold showGameOver
  rw [if_neg (by simp [hu])]
  exact ⟨rfl, rfl⟩

/-- Witness for C7 amended, after a game over from the airborne probe state and
for press and release events at concrete times. -/
theorem c7_inputs_witness :
    applyEvents (showGameOver airborneProbe) [GEvent.press 1, GEvent.release 2]
      = showGameOver airborneProbe ∧
    (∀ u : EngineState, u.isGameOver = false →
      (showGameOver u).isGameOver = true ∧ (showGameOver u).isPressing = false) ∧
    (onPressStart airborneProbe 7).player.position = airborneProbe.player.position ∧
    (onPressStart airborneProbe 7).player.isCharging = airborneProbe.player.isCharging ∧
    (onPressStart airborneProbe 7).score = airborneProbe.score ∧
    (onPressStart airborneProbe 7).player.isJumping = true ∧
    (onPressEnd airborneProbe 7).player.position = airborneProbe.player.position ∧
    (onPressEnd airborneProbe 7).score = airborneProbe.score ∧
    (onPressEnd airborneProbe 7).player.isJumping = true ∧
    (onPressEnd airborneProbe 7).player.jumpTarget = airborneProbe.player.jumpTarget :=
  c7_inputs (showGameOver airborneProbe) 7 [GEvent.press 1, GEvent.release 2]
    rfl rfl airborneProbe rfl

theorem session_invariant_aux (s : SessionState) (h : SessionReachable s) :
    s.targetPlatformIndex = s.currentPlatformIndex + 1 ∧
    s.platforms.length = s.targetPlatformIndex + 1 := by
  induction h with
  | init rAxis rDist rX rZ =>
    constructor <;> simp [initSession, sessionGenerateNext]
  | success t rAxis rDist rX rZ ht hgo ih =>
    obtain ⟨ih1, ih2⟩ := ih
    constructor <;> simp [sessionLandSuccess, sessionGenerateNext] <;> omega
  | fail t ht ih =>
    simpa [sessionLandFail] using ih

/-- C8: in every reachable at-rest session state, targetPlatformIndex equals
currentPlatformIndex + 1 and the platform list has at least
targetPlatformIndex + 1 entries; the session starts with two platforms and
indices (0,1); and each successful landing moves currentPlatformIndex to the
old targetPlatformIndex, increments targetPlatformIndex and the score, and
appends exactly one platform. -/
theorem c8_session_invariant (s : SessionState) (h : SessionReachable s) :
    s.targetPlatformIndex = s.currentPlatformIndex + 1 ∧
    s.targetPlatformIndex + 1 ≤ s.platforms.length ∧
    (∀ r1 r2 r3 r4 : ℚ,
      (initSession r1 r2 r3 r4).platforms.length = 2 ∧
      (initSession r1 r2 r3 r4).currentPlatformIndex = 0 ∧
      (initSession r1 r2 r3 r4).targetPlatformIndex = 1) ∧
    (∀ (t : SessionState) (r1 r2 r3 r4 : ℚ),
      (sessionLandSuccess t r1 r2 r3 r4).currentPlatformIndex = t.targetPlatformIndex ∧
      (sessionLandSuccess t r1 r2 r3 r4).targetPlatformIndex = t.targetPlatformIndex + 1 ∧
      (sessionLandSuccess t r1 r2 r3 r4).score = t.score + 1 ∧
      (sessionLandSuccess t r1 r2 r3 r4).platforms.length = t.platforms.length + 1) := by
  obtain ⟨h1, h2⟩ := session_invariant_aux s h
  refine ⟨h1, by omega, ?_, ?_⟩
  · intro r1 r2 r3 r4
    refine ⟨?_, rfl, rfl⟩
    simp [initSession, sessionGenerateNext]
  · intro t r1 r2 r3 r4
    refine ⟨rfl, rfl, rfl, ?_⟩
    simp [sessionLandSuccess, sessionGenerateNext]

/-- Witness for C8 at the freshly initialized session with zero random draws. -/
theorem c8_witness :
    (initSession 0 0 0 0).targetPlatformIndex = (initSession 0 0 0 0).currentPlatformIndex + 1 ∧
    (initSession 0 0 0 0).targetPlatformIndex + 1 ≤ (initSession 0 0 0 0).platforms.length ∧
    (∀ r1 r2 r3 r4 : ℚ,
      (initSession r1 r2 r3 r4).platforms.length = 2 ∧
      (initSession r1 r2 r3 r4).currentPlatformIndex = 0 ∧
      (initSession r1 r2 r3 r4).targetPlatformIndex = 1) ∧
    (∀ (t : SessionState) (r1 r2 r3 r4 : ℚ),
      (sessionLandSuccess t r1 r2 r3 r4).currentPlatformIndex = t.targetPlatformIndex ∧
      (sessionLandSuccess t r1 r2 r3 r4).targetPlatformIndex = t.targetPlatformIndex + 1 ∧
      (sessionLandSuccess t r1 r2 r3 r4).score = t.score + 1 ∧
      (sessionLandSuccess t r1 r2 r3 r4).platforms.length = t.platforms.length + 1) :=
  c8_session_invariant (initSession 0 0 0 0) (SessionReachable.init 0 0 0 0)

/-- C9 counterexample: stepping a freshly generated platform (spawned at y = 5,
velocity -10) with three frames of 0.25 seconds produces two damped bounces
(contact speeds 20 and 1, both above the 0.1 threshold), and the platform is
still falling afterwards — refuting that exactly one damped bounce occurs
before the platform rests. -/
theorem c9_counterexample :
    countBounces freshFallingPlatform [1/4, 1/4, 1/4] = 2 ∧
    ((freshFallingPlatform.update (1/4)).update (1/4)).velocity = 4 ∧
    (((freshFallingPlatform.update (1/4)).update (1/4)).update (1/4)).velocity = 1/5 ∧
    (((freshFallingPlatform.update (1/4)).update (1/4)).update (1/4)).isFalling = true := by
  refine ⟨?_, ?_, ?_, ?_⟩ <;>
    norm_num [countBounces, fallStepBounced, Platform.update, freshFallingPlatform,
      generateNextPlatform, mkPlatform, Platform.setPosition, Platform.startFalling,
      startPlatformProbe, GRAVITY, INITIAL_VELOCITY, BOUNCE_FACTOR, BOUNCE_THRESHOLD]

/-- C9 amended: every newly generated platform begins elevated at y = 5 in the
falling state with velocity -10; each frame adds GRAVITY * dt to the
velocity; at ground contact with speed above BOUNCE_THRESHOLD the platform
performs a damped bounce (velocity reversed and scaled by BOUNCE_FACTOR,
height clamped to 0, still falling) — possibly more than once over a fall —
and at a contact with speed at most BOUNCE_THRESHOLD it settles at y = 0 with
zero velocity in the resting state; resting platforms are left unchanged. -/
theorem c9_fall_simulation (last : Platform) (rA rD rX rZ : ℚ) (p : Platform) (dt : ℚ)
    (hf : p.isFalling = true) :
    (generateNextPlatform last rA rD rX rZ).pos.y = 5 ∧
    (generateNextPlatform last rA rD rX rZ).isFalling = true ∧
    (generateNextPlatform last rA rD rX rZ).velocity = INITIAL_VELOCITY ∧
    (∀ q : Platform, q.isFalling = false → q.update dt = q) ∧
    (0 < p.pos.y + (p.velocity + GRAVITY * dt) * dt →
      p.update dt = { p with
        velocity := p.velocity + GRAVITY * dt
        pos := ⟨p.pos.x, p.pos.y + (p.velocity + GRAVITY * dt) * dt, p.pos.z⟩ }) ∧
    (p.pos.y + (p.velocity + GRAVITY * dt) * dt ≤ 0 →
      BOUNCE_THRESHOLD < |p.velocity + GRAVITY * dt| →
      p.update dt = { p with
        velocity := -(p.velocity + GRAVITY * dt) * BOUNCE_FACTOR
        pos := ⟨p.pos.x, 0, p.pos.z⟩ } ∧
      (p.update dt).isFalling = true) ∧
    (p.pos.y + (p.velocity + GRAVITY * dt) * dt ≤ 0 →
      |p.velocity + GRAVITY * dt| ≤ BOUNCE_THRESHOLD →
      p.update dt = { p with
        velocity := 0
        pos := ⟨p.pos.x, 0, p.pos.z⟩
        isFalling := false }) := by
  have hnf : ¬ (p.isFalling = false) := by simp [hf]
  refine ⟨rfl, rfl, rfl, ?_, ?_, ?_, ?_⟩
  · intro q hq
    unfold Platform.update
    rw [if_pos hq]
  · intro hup
    unfold Platform.update
    rw [if_neg hnf, if_neg (not_le.mpr hup)]
  · intro hdown hfast
    unfold Platform.update
    rw [if_neg hnf, if_pos hdown, if_pos hfast]
    exact ⟨rfl, hf⟩
  · intro hdown hslow
    unfold Platform.update
    rw [if_neg hnf, if_pos hdown, if_neg (not_lt.mpr hslow)]

/-- Witness for C9 amended at the fresh platform and a frame of 0.25 seconds. -/
theorem c9_fall_witness :
    (generateNextPlatform startPlatformProbe 0 0 0 0).pos.y = 5 ∧
    (generateNextPlatform startPlatformProbe 0 0 0 0).isFalling = true ∧
    (generateNextPlatform startPlatformProbe 0 0 0 0).velocity = INITIAL_VELOCITY ∧
    (∀ q : Platform, q.isFalling = false → q.update (1/4) = q) ∧
    (0 < freshFallingPlatform.pos.y
        + (freshFallingPlatform.velocity + GRAVITY * (1/4)) * (1/4) →
      freshFallingPlatform.update (1/4)
        = { freshFallingPlatform with
            velocity := freshFallingPlatform.velocity + GRAVITY * (1/4)
            pos := ⟨freshFallingPlatform.pos.x,
              freshFallingPlatform.pos.y
                + (freshFallingPlatform.velocity + GRAVITY * (1/4)) * (1/4),
              freshFallingPlatform.pos.z⟩ }) ∧
    (freshFallingPlatform.pos.y
        + (freshFallingPlatform.velocity + GRAVITY * (1/4)) * (1/4) ≤ 0 →
      BOUNCE_THRESHOLD < |freshFallingPlatform.velocity + GRAVITY * (1/4)| →
      freshFallingPlatform.update (1/4)
        = { freshFallingPlatform with
            velocity := -(freshFallingPlatform.velocity + GRAVITY * (1/4)) * BOUNCE_FACTOR
            pos := ⟨freshFallingPlatform.pos.x, 0, freshFallingPlatform.pos.z⟩ } ∧
      (freshFallingPlatform.update (1/4)).isFalling = true) ∧
    (freshFallingPlatform.pos.y
        + (freshFallingPlatform.velocity + GRAVITY * (1/4)) * (1/4) ≤ 0 →
      |freshFallingPlatform.velocity + GRAVITY * (1/4)| ≤ BOUNCE_THRESHOLD →
      freshFallingPlatform.update (1/4)
        = { freshFallingPlatform with
            velocity := 0
            pos := ⟨freshFallingPlatform.pos.x, 0, freshFallingPlatform.pos.z⟩
            isFalling := false }) :=
  c9_fall_simulation startPlatformProbe 0 0 0 0 freshFallingPlatform (1/4) rfl

theorem isPointOnPlatform_setPlatY (h : ℚ) (p : Platform) (pt : Vec3) :
    (setPlatY h p).isPointOnPlatform pt = p.isPointOnPlatform pt := rfl

theorem findLanded_setPlatY (h : ℚ) (ps : List Platform) (pt : Vec3) :
    (findLandedPlatform (ps.map (setPlatY h)) pt).isSome
      = (findLandedPlatform ps pt).isSome := by
  induction ps with
  | nil => rfl
  | cons hd tl ih =>
    show (if (setPlatY h hd).isPointOnPlatform pt then some (setPlatY h hd)
        else findLandedPlatform (tl.map (setPlatY h)) pt).isSome
      = (if hd.isPointOnPlatform pt then some hd else findLandedPlatform tl pt).isSome
    rw [isPointOnPlatform_setPlatY]
    by_cases hc : hd.isPointOnPlatform pt = true
    · rw [if_pos hc, if_pos hc]
      rfl
    · rw [if_neg hc, if_neg hc]
      exact ih

/-- C10: the point-on-platform test ignores the queried point's y coordinate
and the platform's current height, so a platform caught mid-fall is judged
exactly as if it had settled, and the full landing resolution is unchanged
when every platform's height is replaced; on success the character's height
is the constant platform-top height 1, not the matched platform's height. -/
theorem c10_height_independence (p : Platform) (pt : Vec3) (y1 y2 hgt : ℚ)
    (ps : List Platform) (q : Vec3)
    (hs : (resolveLanding ps q).2 = true) :
    p.isPointOnPlatform ⟨pt.x, y1, pt.z⟩ = p.isPointOnPlatform ⟨pt.x, y2, pt.z⟩ ∧
    (setPlatY hgt p).isPointOnPlatform pt = p.isPointOnPlatform pt ∧
    resolveLanding (ps.map (setPlatY hgt)) q = resolveLanding ps q ∧
    ((resolveLanding ps q).1).y = PLAYER_PLATFORM_Y ∧
    PLAYER_PLATFORM_Y = 1 := by
  refine ⟨rfl, rfl, ?_, ?_, rfl⟩
  · have hsome := findLanded_setPlatY hgt ps ⟨q.x, PLAYER_PLATFORM_Y, q.z⟩
    unfold resolveLanding
    cases h1 : findLandedPlatform (ps.map (setPlatY hgt)) ⟨q.x, PLAYER_PLATFORM_Y, q.z⟩ <;>
      cases h2 : findLandedPlatform ps ⟨q.x, PLAYER_PLATFORM_Y, q.z⟩ <;>
      simp_all
  · unfold resolveLanding at hs ⊢
    cases h : findLandedPlatform ps ⟨q.x, PLAYER_PLATFORM_Y, q.z⟩ <;> simp_all

/-- Witness for C10 on the start platform, heights 0 and 9, and a successful
landing at the origin. -/
theorem c10_witness :
    startPlatformProbe.isPointOnPlatform ⟨(1:ℚ), 0, 1⟩
      = startPlatformProbe.isPointOnPlatform ⟨(1:ℚ), 9, 1⟩ ∧
    (setPlatY 9 startPlatformProbe).isPointOnPlatform ⟨(1:ℚ), 0, 1⟩
      = startPlatformProbe.isPointOnPlatform ⟨(1:ℚ), 0, 1⟩ ∧
    resolveLanding ([startPlatformProbe].map (setPlatY 9)) ⟨0, 0, 0⟩
      = resolveLanding [startPlatformProbe] ⟨0, 0, 0⟩ ∧
    ((resolveLanding [startPlatformProbe] ⟨0, 0, 0⟩).1).y = PLAYER_PLATFORM_Y ∧
    PLAYER_PLATFORM_Y = 1 :=
  c10_height_independence startPlatformProbe ⟨1, 0, 1⟩ 0 9 9 [startPlatformProbe] ⟨0, 0, 0⟩
    (by norm_num [resolveLanding, findLandedPlatform, Platform.isPointOnPlatform,
      startPlatformProbe, mkPlatform, Platform.setPosition, LANDING_TOLERANCE,
      PLAYER_PLATFORM_Y])

end JumpGame
